import Mathlib

/-!
Shallow embedding of the point-calculation engine of the
`one-piece-points` repository: the liquidity integrator
`calculateLiquidityPointBase` and the per-user point aggregator
`calculateUserPoints` (both in the TypeScript source next to the
subgraph type declarations).

Modelling choices:
* `Decimal` values (decimal.js, arbitrary-precision decimals; the core
  uses only `add`, `sub`, `mul`, `isNegative`, `gt(0)`, all exact) are
  modelled as `ℚ`.
* Timestamps (JavaScript numbers holding integer Unix seconds) are `ℤ`.
* The zero-or-one snapshot arrays of the source are kept as lists; the
  source reads element `[0]`, which is `List.head?` here.
* `PerpLeaderboard.liquidity` is an `Option`, mirroring the runtime
  `if (lead.liquidity)` null check in `calculateUserPoints`.
-/

/-- `PerpLiquiditySnap` of the source: a liquidity snapshot,
`basePoints` being the precomputed running integral up to `timestamp`. -/
structure PerpLiquiditySnap where
  id : String
  lp : ℚ
  basePoints : ℚ
  timestamp : ℤ
  deriving DecidableEq

/-- `PerpLiquidity` of the source: per-user liquidity aggregate with
zero-or-one `start` and `ended` snapshots. -/
structure PerpLiquidity where
  account : String
  lp : ℚ
  start : List PerpLiquiditySnap
  ended : List PerpLiquiditySnap
  deriving DecidableEq

/-- `PerpLeaderboardSnap` of the source: a trading snapshot of
cumulative-to-date quantities. -/
structure PerpLeaderboardSnap where
  tradingVolume : ℚ
  conditionTradeVolume : ℚ
  swap : ℚ
  netProfit : ℚ
  deriving DecidableEq

/-- `PerpLeaderboard` of the source: the per-user input record. -/
structure PerpLeaderboard where
  account : String
  tradingVolume : ℚ
  conditionTradeVolume : ℚ
  swap : ℚ
  netProfit : ℚ
  latestUpdateTimestamp : ℤ
  start : List PerpLeaderboardSnap
  ended : List PerpLeaderboardSnap
  liquidity : Option PerpLiquidity
  deriving DecidableEq

/-- `CalculationConfig` of the source: the three rate multipliers.
The source declares no limit fields. -/
structure CalculationConfig where
  liquidityRate : ℚ
  tradeProfitRate : ℚ
  tradeRate : ℚ
  deriving DecidableEq

/-- `UserPoints` of the source: the per-user output record. -/
structure UserPoints where
  account : String
  lp_usd_hours : ℚ
  volume_usd : ℚ
  realized_pnl_net_usd : ℚ
  deriving DecidableEq

/-- `calculateLiquidityPointBase` of the source: closed-form
time-weighted liquidity integral over `[startTime, endTime]`. -/
def calculateLiquidityPointBase (liquidity : PerpLiquidity)
    (startTime endTime : ℤ) : ℚ :=
  match liquidity.ended.head? with
  | none => 0
  | some endSnap =>
    if endSnap.timestamp < startTime then 0
    else
      let integral := endSnap.basePoints
      let integral :=
        if endSnap.timestamp < endTime then
          integral + ((endTime - endSnap.timestamp : ℤ) : ℚ) * endSnap.lp
        else integral
      match liquidity.start.head? with
      | none => integral
      | some startSnap =>
        let beforeBasePoints := startSnap.basePoints
        let beforeBasePoints :=
          if startSnap.timestamp < startTime then
            beforeBasePoints + ((startTime - startSnap.timestamp : ℤ) : ℚ) * startSnap.lp
          else beforeBasePoints
        integral - beforeBasePoints

/-- Body of the `leaderboards.map` callback inside `calculateUserPoints`
of the source: the per-record point computation. -/
def calculateUserPointsFor (config : CalculationConfig)
    (startTime stopTime : ℤ) (overtime : Bool)
    (lead : PerpLeaderboard) : UserPoints :=
  let lp_usd_hours :=
    match lead.liquidity with
    | none => 0
    | some liq =>
      let liquidityPoint :=
        (calculateLiquidityPointBase liq startTime stopTime) * config.liquidityRate
      if liquidityPoint < 0 then 0 else liquidityPoint
  let tradeVolume :=
    match (if overtime ∧ stopTime < lead.latestUpdateTimestamp then
            lead.ended.head? else none) with
    | some e => e.tradingVolume
    | none => lead.tradingVolume
  let tradeVolume :=
    match lead.start.head? with
    | some s => tradeVolume - s.tradingVolume
    | none => tradeVolume
  let tradePoint := tradeVolume * config.tradeRate
  let volume_usd := if tradePoint < 0 then 0 else tradePoint
  let netProfit :=
    match (if overtime ∧ stopTime < lead.latestUpdateTimestamp then
            lead.ended.head? else none) with
    | some e => e.netProfit
    | none => lead.netProfit
  let netProfit :=
    match lead.start.head? with
    | some s => netProfit - s.netProfit
    | none => netProfit
  let tradeProfitPoint :=
    if 0 < netProfit then netProfit * config.tradeProfitRate else 0
  let realized_pnl_net_usd := if tradeProfitPoint < 0 then 0 else tradeProfitPoint
  { account := lead.account
    lp_usd_hours := lp_usd_hours
    volume_usd := volume_usd
    realized_pnl_net_usd := realized_pnl_net_usd }

/-- `calculateUserPoints` of the source: maps the per-record
computation over the input list. -/
def calculateUserPoints (leaderboards : List PerpLeaderboard)
    (config : CalculationConfig) (startTime stopTime : ℤ)
    (overtime : Bool) : List UserPoints :=
  leaderboards.map (calculateUserPointsFor config startTime stopTime overtime)

/-- Modelled from the spec: the optional caps `liquidityLimit`,
`tradeLimit`, `tradeProfitLimit` of the Calculation Configuration.
They are missing from the implementation in `src` (its
`CalculationConfig` declares only the three rates), while the
repository README documents all three limit fields and the unit tests
exercise them. -/
structure CalculationLimits where
  liquidityLimit : Option ℚ
  tradeLimit : Option ℚ
  tradeProfitLimit : Option ℚ
  deriving DecidableEq

/-- Modelled from the spec: a cap is a hard ceiling, `min(value, limit)`
when the limit is set, the identity when it is not. -/
def applyLimit (v : ℚ) : Option ℚ → ℚ
  | none => v
  | some l => min v l

/-- Modelled from the spec: `calculateUserPoints` followed by the
documented cap step on each point category. -/
def calculateUserPointsCapped (leaderboards : List PerpLeaderboard)
    (config : CalculationConfig) (limits : CalculationLimits)
    (startTime stopTime : ℤ) (overtime : Bool) : List UserPoints :=
  (calculateUserPoints leaderboards config startTime stopTime overtime).map fun r =>
    { r with
      lp_usd_hours := applyLimit r.lp_usd_hours limits.liquidityLimit
      volume_usd := applyLimit r.volume_usd limits.tradeLimit
      realized_pnl_net_usd := applyLimit r.realized_pnl_net_usd limits.tradeProfitLimit }

/-- The end-baseline trading volume the aggregator works from: the
`ended` snapshot's `tradingVolume` under the overtime condition of the
source, the record's top-level `tradingVolume` otherwise. -/
def effectiveEndVolume (lead : PerpLeaderboard) (stopTime : ℤ)
    (overtime : Bool) : ℚ :=
  match (if overtime ∧ stopTime < lead.latestUpdateTimestamp then
          lead.ended.head? else none) with
  | some e => e.tradingVolume
  | none => lead.tradingVolume

/-- The end-baseline net profit the aggregator works from: the `ended`
snapshot's `netProfit` under the overtime condition of the source, the
record's top-level `netProfit` otherwise. -/
def effectiveNetProfit (lead : PerpLeaderboard) (stopTime : ℤ)
    (overtime : Bool) : ℚ :=
  match (if overtime ∧ stopTime < lead.latestUpdateTimestamp then
          lead.ended.head? else none) with
  | some e => e.netProfit
  | none => lead.netProfit

/-- Trade-point pipeline as worded by the spec, from a given
end-baseline volume `v`: subtract the `start` snapshot's volume when
present, multiply by `tradeRate`, clamp to zero. -/
def specTradePoints (lead : PerpLeaderboard) (config : CalculationConfig)
    (v : ℚ) : ℚ :=
  let v1 :=
    match lead.start.head? with
    | some s => v - s.tradingVolume
    | none => v
  max 0 (v1 * config.tradeRate)

/-- Trade-profit-point pipeline as worded by the spec, from a given
end-baseline net profit `p`: subtract the `start` snapshot's net profit
when present; only a strictly positive remainder is multiplied by
`tradeProfitRate`; clamp to zero. -/
def specProfitPoints (lead : PerpLeaderboard) (config : CalculationConfig)
    (p : ℚ) : ℚ :=
  let p1 :=
    match lead.start.head? with
    | some s => p - s.netProfit
    | none => p
  if 0 < p1 then max 0 (p1 * config.tradeProfitRate) else 0

/-- Zero out the `swap` and `conditionTradeVolume` fields of a trading
snapshot. -/
def scrubSnap (s : PerpLeaderboardSnap) : PerpLeaderboardSnap :=
  { s with swap := 0, conditionTradeVolume := 0 }

/-- Zero out the top-level `lp` of a liquidity record. -/
def scrubLiquidity (l : PerpLiquidity) : PerpLiquidity :=
  { l with lp := 0 }

/-- Zero out every field of a user record that claim C10 lists as
irrelevant: top-level `swap` and `conditionTradeVolume`, the top-level
`lp` of the nested liquidity record, and the `swap` and
`conditionTradeVolume` fields of the `start` and `ended` trading
snapshots. Two records agree after `scrubLead` exactly when they differ
at most in those fields. -/
def scrubLead (l : PerpLeaderboard) : PerpLeaderboard :=
  { l with
    swap := 0
    conditionTradeVolume := 0
    start := l.start.map scrubSnap
    ended := l.ended.map scrubSnap
    liquidity := l.liquidity.map scrubLiquidity }

/-- Liquidity record of spec Scenario A and of the repository's own unit
test `should calculate integral correctly within time segment`. -/
def scenarioALiquidity : PerpLiquidity :=
  { account := "test"
    lp := 100
    start := [{ id := "1", lp := 100, basePoints := 50, timestamp := 1000 }]
    ended := [{ id := "2", lp := 200, basePoints := 100, timestamp := 1500 }] }

/-- Sample configuration with all three rates equal to one. -/
def cfg1 : CalculationConfig :=
  { liquidityRate := 1, tradeProfitRate := 1, tradeRate := 1 }

/-- Sample limits, all three set. -/
def limits1 : CalculationLimits :=
  { liquidityLimit := some 2, tradeLimit := some 3, tradeProfitLimit := some 4 }

/-- Sample start trading snapshot. -/
def startSnap1 : PerpLeaderboardSnap :=
  { tradingVolume := 200, conditionTradeVolume := 100, swap := 50, netProfit := 10 }

/-- Sample ended trading snapshot. -/
def endSnap1 : PerpLeaderboardSnap :=
  { tradingVolume := 1200, conditionTradeVolume := 600, swap := 150, netProfit := 60 }

/-- Sample user record, patterned on the repository's overtime unit
test: both snapshots present, `latestUpdateTimestamp` past the window
stop time `1500`. -/
def lead1 : PerpLeaderboard :=
  { account := "user1"
    tradingVolume := 1500
    conditionTradeVolume := 750
    swap := 200
    netProfit := 80
    latestUpdateTimestamp := 2500
    start := [startSnap1]
    ended := [endSnap1]
    liquidity := some scenarioALiquidity }

/-- Sample user record with a loss, patterned on spec Scenario C. -/
def lead2 : PerpLeaderboard :=
  { account := "user2"
    tradingVolume := 1000
    conditionTradeVolume := 500
    swap := 100
    netProfit := -50
    latestUpdateTimestamp := 1500
    start := []
    ended := []
    liquidity := none }

/-- The uncapped result for `lead1` over `[0, 10]` without overtime. -/
def uncappedR1 : UserPoints := calculateUserPointsFor cfg1 0 10 false lead1

/-- The capped result for `lead1`, per the spec-modelled cap step with
`limits1`. -/
def cappedR1 : UserPoints :=
  { uncappedR1 with
    lp_usd_hours := applyLimit uncappedR1.lp_usd_hours limits1.liquidityLimit
    volume_usd := applyLimit uncappedR1.volume_usd limits1.tradeLimit
    realized_pnl_net_usd :=
      applyLimit uncappedR1.realized_pnl_net_usd limits1.tradeProfitLimit }

/-- Liquidity record whose only snapshot predates the window used by the
C7 witness. -/
def earlyLiquidity : PerpLiquidity :=
  { account := "test"
    lp := 100
    start := [{ id := "1", lp := 100, basePoints := 50, timestamp := 500 }]
    ended := [{ id := "2", lp := 200, basePoints := 100, timestamp := 800 }] }

/-- First of a pair of user records differing only in the fields claim
C10 lists as irrelevant. -/
def leadIrrelevantA : PerpLeaderboard :=
  { account := "user1"
    tradingVolume := 1500
    conditionTradeVolume := 750
    swap := 200
    netProfit := 80
    latestUpdateTimestamp := 2500
    start := [startSnap1]
    ended := [endSnap1]
    liquidity := some scenarioALiquidity }

/-- Second of the pair: same as `leadIrrelevantA` except for `swap`,
`conditionTradeVolume`, the liquidity's top-level `lp`, and the
snapshots' `swap`/`conditionTradeVolume`. -/
def leadIrrelevantB : PerpLeaderboard :=
  { account := "user1"
    tradingVolume := 1500
    conditionTradeVolume := 7
    swap := 2
    netProfit := 80
    latestUpdateTimestamp := 2500
    start := [{ startSnap1 with swap := 9, conditionTradeVolume := 8 }]
    ended := [{ endSnap1 with swap := 3, conditionTradeVolume := 4 }]
    liquidity := some { scenarioALiquidity with lp := 77 } }

/-- Clamp written with an `if`, as the source's `isNegative()` check,
equals `max 0`. -/
lemma ite_lt_zero_eq_max (x : ℚ) : (if x < 0 then 0 else x) = max 0 x := by
  rcases lt_or_le x 0 with h | h
  · rw [if_pos h, max_eq_left h.le]
  · rw [if_neg (not_lt.mpr h), max_eq_right h]

/-- The trade-point component of the per-record computation equals the
spec's pipeline applied to the effective end-baseline volume. -/
lemma volume_usd_eq (config : CalculationConfig) (a b : ℤ) (ot : Bool)
    (lead : PerpLeaderboard) :
    (calculateUserPointsFor config a b ot lead).volume_usd =
      specTradePoints lead config (effectiveEndVolume lead b ot) := by
  unfold calculateUserPointsFor specTradePoints effectiveEndVolume
  cases h : (if ot ∧ b < lead.latestUpdateTimestamp then lead.ended.head? else none) <;>
    cases hs : lead.start.head? <;>
      simp [h, hs, ite_lt_zero_eq_max]

/-- The trade-profit component of the per-record computation equals the
spec's pipeline applied to the effective end-baseline net profit. -/
lemma realized_eq (config : CalculationConfig) (a b : ℤ) (ot : Bool)
    (lead : PerpLeaderboard) :
    (calculateUserPointsFor config a b ot lead).realized_pnl_net_usd =
      specProfitPoints lead config (effectiveNetProfit lead b ot) := by
  unfold calculateUserPointsFor specProfitPoints effectiveNetProfit
  cases h : (if ot ∧ b < lead.latestUpdateTimestamp then lead.ended.head? else none) <;>
    cases hs : lead.start.head? <;>
      simp [h, hs, ite_lt_zero_eq_max] <;>
        split <;> simp [ite_lt_zero_eq_max]

/-- C1: on the liquidity record of spec Scenario A (start `lp = 100`,
`basePoints = 50`, `t = 1000`; ended `lp = 200`, `basePoints = 100`,
`t = 1500`) over the window `[1200, 1400]`, the source's
`calculateLiquidityPointBase` returns `-19950`, not the `30000` the
claim, the spec fixture, and the repository's own unit test state. -/
theorem c1_scenarioA_code_value :
    calculateLiquidityPointBase scenarioALiquidity 1200 1400 = -19950 ∧
    calculateLiquidityPointBase scenarioALiquidity 1200 1400 ≠ 30000 := by
  constructor
  · norm_num [calculateLiquidityPointBase, scenarioALiquidity]
  · norm_num [calculateLiquidityPointBase, scenarioALiquidity]

/-- C3: whenever the `ended` snapshot exists and its timestamp is at or
after the window start, `calculateLiquidityPointBase` returns `E - S`,
with `E` the ended snapshot's `basePoints` plus forward extrapolation
`(windowEnd - ended.timestamp) * ended.lp` when `ended.timestamp <
windowEnd`, and `S` zero without a start snapshot, else the start
snapshot's `basePoints` plus `(windowStart - start.timestamp) *
start.lp` when `start.timestamp < windowStart`. -/
theorem c3_closed_form (liq : PerpLiquidity) (a b : ℤ)
    (e : PerpLiquiditySnap) (hE : liq.ended.head? = some e)
    (hge : a ≤ e.timestamp) :
    calculateLiquidityPointBase liq a b =
      (e.basePoints +
        (if e.timestamp < b then ((b - e.timestamp : ℤ) : ℚ) * e.lp else 0)) -
      (match liq.start.head? with
       | none => 0
       | some s =>
         s.basePoints +
           (if s.timestamp < a then ((a - s.timestamp : ℤ) : ℚ) * s.lp else 0)) := by
  simp only [calculateLiquidityPointBase, hE]
  rw [if_neg (not_lt.mpr hge)]
  cases hs : liq.start.head? with
  | none =>
    by_cases hb : e.timestamp < b <;> simp [hb]
  | some s =>
    by_cases hb : e.timestamp < b <;> by_cases ha : s.timestamp < a <;>
      simp only [hb, ha, if_true, if_false, ite_true, ite_false] <;>
        push_cast <;> ring

/-- C3 witness: the closed form evaluated on Scenario A's record. -/
theorem c3_closed_form_witness :
    calculateLiquidityPointBase scenarioALiquidity 1200 1400 = -19950 :=
  (c3_closed_form scenarioALiquidity 1200 1400
      { id := "2", lp := 200, basePoints := 100, timestamp := 1500 }
      rfl (by decide)).trans (by norm_num [scenarioALiquidity])

/-- C7: `calculateLiquidityPointBase` returns exactly zero when the
`ended` snapshot is absent, and likewise when it exists but its
timestamp is strictly before the window start. -/
theorem c7_window_clipping (liq : PerpLiquidity) (a b : ℤ)
    (h : ∀ e, liq.ended.head? = some e → e.timestamp < a) :
    calculateLiquidityPointBase liq a b = 0 := by
  cases hE : liq.ended.head? with
  | none => simp [calculateLiquidityPointBase, hE]
  | some e => simp [calculateLiquidityPointBase, hE, h e hE]

/-- C7 witness: a record whose only `ended` snapshot sits at `t = 800`,
before the window start `1000`, yields zero. -/
theorem c7_window_clipping_witness :
    calculateLiquidityPointBase earlyLiquidity 1000 2000 = 0 :=
  c7_window_clipping earlyLiquidity 1000 2000 (by
    intro e he
    simp only [earlyLiquidity, List.head?_cons, Option.some.injEq] at he
    rw [← he]
    decide)

/-- C4: with `overtime = true`, `latestUpdateTimestamp > stopTime`, and
an `ended` trading snapshot present, the aggregator computes trade and
trade-profit points from the `ended` snapshot's `tradingVolume` and
`netProfit`; in every other case it computes them from the record's
top-level cumulative fields. -/
theorem c4_overtime_substitution (config : CalculationConfig) (a b : ℤ)
    (ot : Bool) (lead : PerpLeaderboard) :
    (∀ e, ot = true → b < lead.latestUpdateTimestamp →
        lead.ended.head? = some e →
      (calculateUserPointsFor config a b ot lead).volume_usd =
          specTradePoints lead config e.tradingVolume ∧
        (calculateUserPointsFor config a b ot lead).realized_pnl_net_usd =
          specProfitPoints lead config e.netProfit) ∧
    ((ot = false ∨ lead.latestUpdateTimestamp ≤ b ∨ lead.ended = []) →
      (calculateUserPointsFor config a b ot lead).volume_usd =
          specTradePoints lead config lead.tradingVolume ∧
        (calculateUserPointsFor config a b ot lead).realized_pnl_net_usd =
          specProfitPoints lead config lead.netProfit) := by
  constructor
  · intro e hot hlt hE
    rw [volume_usd_eq, realized_eq]
    have hv : effectiveEndVolume lead b ot = e.tradingVolume := by
      simp [effectiveEndVolume, hot, hlt, hE]
    have hp : effectiveNetProfit lead b ot = e.netProfit := by
      simp [effectiveNetProfit, hot, hlt, hE]
    rw [hv, hp]
    exact ⟨rfl, rfl⟩
  · intro hcase
    rw [volume_usd_eq, realized_eq]
    have hv : effectiveEndVolume lead b ot = lead.tradingVolume := by
      rcases hcase with h | h | h
      · simp [effectiveEndVolume, h]
      · simp [effectiveEndVolume, not_lt.mpr h]
      · simp [effectiveEndVolume, h]
    have hp : effectiveNetProfit lead b ot = lead.netProfit := by
      rcases hcase with h | h | h
      · simp [effectiveNetProfit, h]
      · simp [effectiveNetProfit, not_lt.mpr h]
      · simp [effectiveNetProfit, h]
    rw [hv, hp]
    exact ⟨rfl, rfl⟩

/-- C4 witness: the overtime branch on the sample record `lead1`. -/
theorem c4_overtime_substitution_witness :
    (calculateUserPointsFor cfg1 1000 1500 true lead1).volume_usd =
        specTradePoints lead1 cfg1 endSnap1.tradingVolume ∧
      (calculateUserPointsFor cfg1 1000 1500 true lead1).realized_pnl_net_usd =
        specProfitPoints lead1 cfg1 endSnap1.netProfit :=
  (c4_overtime_substitution cfg1 1000 1500 true lead1).1 endSnap1 rfl
    (by decide) rfl

/-- C5: with a `start` trading snapshot present and `tradeRate = 1`,
the trade points equal `max 0 (v1 - v0)`, where `v1` is the effective
end volume after any overtime substitution and `v0` the start
snapshot's `tradingVolume`. -/
theorem c5_baseline_subtraction (config : CalculationConfig) (a b : ℤ)
    (ot : Bool) (lead : PerpLeaderboard) (s : PerpLeaderboardSnap)
    (hs : lead.start.head? = some s) (hr : config.tradeRate = 1) :
    (calculateUserPointsFor config a b ot lead).volume_usd =
      max 0 (effectiveEndVolume lead b ot - s.tradingVolume) := by
  rw [volume_usd_eq]
  simp [specTradePoints, hs, hr]

/-- C5 witness: baseline subtraction on the sample record `lead1`. -/
theorem c5_baseline_subtraction_witness :
    (calculateUserPointsFor cfg1 1000 1500 true lead1).volume_usd =
      max 0 (effectiveEndVolume lead1 1500 true - startSnap1.tradingVolume) :=
  c5_baseline_subtraction cfg1 1000 1500 true lead1 startSnap1 rfl rfl

/-- C8: when the net profit left after the overtime substitution and
the start-snapshot subtraction is zero or negative, the trade-profit
points are exactly zero, whatever `tradeProfitRate` holds. -/
theorem c8_nonpositive_profit (config : CalculationConfig) (a b : ℤ)
    (ot : Bool) (lead : PerpLeaderboard)
    (h : (match lead.start.head? with
          | some s => effectiveNetProfit lead b ot - s.netProfit
          | none => effectiveNetProfit lead b ot) ≤ 0) :
    (calculateUserPointsFor config a b ot lead).realized_pnl_net_usd = 0 := by
  rw [realized_eq]
  cases hs : lead.start.head? with
  | none =>
    rw [hs] at h
    simp [specProfitPoints, hs, not_lt.mpr h]
  | some s =>
    rw [hs] at h
    simp [specProfitPoints, hs, not_lt.mpr h]

/-- C8 witness: spec Scenario C, a net profit of `-50`, yields zero
trade-profit points. -/
theorem c8_nonpositive_profit_witness :
    (calculateUserPointsFor cfg1 1000 1500 false lead2).realized_pnl_net_usd = 0 :=
  c8_nonpositive_profit cfg1 1000 1500 false lead2
    (by norm_num [lead2, effectiveNetProfit])

/-- Clamping with an `if` on negativity always yields a non-negative
value. -/
lemma clamp_nonneg (x : ℚ) : 0 ≤ if x < 0 then 0 else x := by
  rcases lt_or_le x 0 with h | h
  · rw [if_pos h]
  · rw [if_neg (not_lt.mpr h)]
    exact h

/-- Every field of the per-record computation is non-negative. -/
lemma calculateUserPointsFor_nonneg (config : CalculationConfig) (a b : ℤ)
    (ot : Bool) (lead : PerpLeaderboard) :
    0 ≤ (calculateUserPointsFor config a b ot lead).lp_usd_hours ∧
      0 ≤ (calculateUserPointsFor config a b ot lead).volume_usd ∧
      0 ≤ (calculateUserPointsFor config a b ot lead).realized_pnl_net_usd := by
  unfold calculateUserPointsFor
  refine ⟨?_, clamp_nonneg _, clamp_nonneg _⟩
  cases lead.liquidity with
  | none => exact le_refl 0
  | some liq => exact clamp_nonneg _

/-- C6: for rates that are non-negative and an ordered window, every
output record of `calculateUserPoints` carries non-negative liquidity,
trade, and trade-profit points. -/
theorem c6_nonneg (leads : List PerpLeaderboard) (config : CalculationConfig)
    (a b : ℤ) (ot : Bool) (h1 : 0 ≤ config.liquidityRate)
    (h2 : 0 ≤ config.tradeRate) (h3 : 0 ≤ config.tradeProfitRate)
    (hab : a ≤ b) :
    ∀ r ∈ calculateUserPoints leads config a b ot,
      0 ≤ r.lp_usd_hours ∧ 0 ≤ r.volume_usd ∧ 0 ≤ r.realized_pnl_net_usd := by
  intro r hr
  simp only [calculateUserPoints, List.mem_map] at hr
  obtain ⟨lead, _, rfl⟩ := hr
  exact calculateUserPointsFor_nonneg config a b ot lead

/-- C6 witness: non-negativity on the sample record `lead1`. -/
theorem c6_nonneg_witness :
    0 ≤ (calculateUserPointsFor cfg1 1000 1500 false lead1).lp_usd_hours ∧
      0 ≤ (calculateUserPointsFor cfg1 1000 1500 false lead1).volume_usd ∧
      0 ≤ (calculateUserPointsFor cfg1 1000 1500 false lead1).realized_pnl_net_usd :=
  c6_nonneg [lead1] cfg1 1000 1500 false (by norm_num [cfg1])
    (by norm_num [cfg1]) (by norm_num [cfg1]) (by decide)
    (calculateUserPointsFor cfg1 1000 1500 false lead1)
    (by simp [calculateUserPoints])

/-- C9: the output of `calculateUserPoints` has exactly the input's
length, and the account at every output position is the account of the
input record at that position. -/
theorem c9_order_preservation (leads : List PerpLeaderboard)
    (config : CalculationConfig) (a b : ℤ) (ot : Bool) :
    (calculateUserPoints leads config a b ot).length = leads.length ∧
    ∀ i : ℕ,
      ((calculateUserPoints leads config a b ot)[i]?).map UserPoints.account =
        (leads[i]?).map PerpLeaderboard.account := by
  constructor
  · simp [calculateUserPoints]
  · intro i
    simp only [calculateUserPoints, List.getElem?_map]
    cases leads[i]? with
    | none => rfl
    | some lead => simp [calculateUserPointsFor]

/-- C2: at every output position of the capped aggregation, each point
category with a set limit stays at or below that limit, and agrees with
the uncapped value whenever the uncapped value is at or below the
limit. -/
theorem c2_cap_correctness (leads : List PerpLeaderboard)
    (config : CalculationConfig) (limits : CalculationLimits) (a b : ℤ)
    (ot : Bool) (i : ℕ) (r r₀ : UserPoints)
    (hc : (calculateUserPointsCapped leads config limits a b ot)[i]? = some r)
    (hu : (calculateUserPoints leads config a b ot)[i]? = some r₀) :
    (∀ L, limits.liquidityLimit = some L →
        r.lp_usd_hours ≤ L ∧
          (r₀.lp_usd_hours ≤ L → r.lp_usd_hours = r₀.lp_usd_hours)) ∧
    (∀ L, limits.tradeLimit = some L →
        r.volume_usd ≤ L ∧
          (r₀.volume_usd ≤ L → r.volume_usd = r₀.volume_usd)) ∧
    (∀ L, limits.tradeProfitLimit = some L →
        r.realized_pnl_net_usd ≤ L ∧
          (r₀.realized_pnl_net_usd ≤ L →
            r.realized_pnl_net_usd = r₀.realized_pnl_net_usd)) := by
  simp only [calculateUserPointsCapped, List.getElem?_map, hu,
    Option.map_some', Option.some.injEq] at hc
  subst hc
  refine ⟨?_, ?_, ?_⟩
  · intro L hL
    simp only [hL, applyLimit]
    exact ⟨min_le_right _ _, fun hle => min_eq_left hle⟩
  · intro L hL
    simp only [hL, applyLimit]
    exact ⟨min_le_right _ _, fun hle => min_eq_left hle⟩
  · intro L hL
    simp only [hL, applyLimit]
    exact ⟨min_le_right _ _, fun hle => min_eq_left hle⟩

/-- C2 witness: the trade cap of `limits1` on the sample record. -/
theorem c2_cap_correctness_witness :
    cappedR1.volume_usd ≤ 3 ∧
      (uncappedR1.volume_usd ≤ 3 → cappedR1.volume_usd = uncappedR1.volume_usd) :=
  (c2_cap_correctness [lead1] cfg1 limits1 0 10 false 0 cappedR1 uncappedR1
      rfl rfl).2.1 3 rfl

/-- Scrubbing the top-level `lp` leaves the liquidity integral
untouched: the integrator only reads the snapshot lists. -/
lemma calculateLiquidityPointBase_scrub (liq : PerpLiquidity) (a b : ℤ) :
    calculateLiquidityPointBase (scrubLiquidity liq) a b =
      calculateLiquidityPointBase liq a b := rfl

/-- Scrubbing a trading snapshot keeps its `tradingVolume`. -/
lemma scrubSnap_tradingVolume (s : PerpLeaderboardSnap) :
    (scrubSnap s).tradingVolume = s.tradingVolume := rfl

/-- Scrubbing a trading snapshot keeps its `netProfit`. -/
lemma scrubSnap_netProfit (s : PerpLeaderboardSnap) :
    (scrubSnap s).netProfit = s.netProfit := rfl

/-- The per-record computation is invariant under scrubbing the fields
claim C10 lists as irrelevant. -/
lemma calculateUserPointsFor_scrub (config : CalculationConfig) (a b : ℤ)
    (ot : Bool) (l : PerpLeaderboard) :
    calculateUserPointsFor config a b ot (scrubLead l) =
      calculateUserPointsFor config a b ot l := by
  unfold calculateUserPointsFor scrubLead
  by_cases hc : (ot = true) ∧ b < l.latestUpdateTimestamp <;>
    cases hl : l.liquidity <;> cases hs : l.start.head? <;>
      cases he : l.ended.head? <;>
        simp [hc, hl, hs, he, List.head?_map, scrubSnap_tradingVolume,
          scrubSnap_netProfit, calculateLiquidityPointBase_scrub]

/-- C10: two input records that agree outside the fields `swap`,
`conditionTradeVolume`, the liquidity's top-level `lp`, and the
snapshots' `swap`/`conditionTradeVolume` produce identical
`calculateUserPoints` results: none of those fields influences any of
the three point outputs. -/
theorem c10_irrelevant_fields (config : CalculationConfig) (a b : ℤ)
    (ot : Bool) (l₁ l₂ : PerpLeaderboard)
    (h : scrubLead l₁ = scrubLead l₂) :
    calculateUserPoints [l₁] config a b ot =
      calculateUserPoints [l₂] config a b ot := by
  have e1 := calculateUserPointsFor_scrub config a b ot l₁
  have e2 := calculateUserPointsFor_scrub config a b ot l₂
  simp only [calculateUserPoints, List.map_cons, List.map_nil]
  rw [← e1, ← e2, h]

/-- C10 witness: the two sample records differing only in the
irrelevant fields produce the same output. -/
theorem c10_irrelevant_fields_witness :
    calculateUserPoints [leadIrrelevantA] cfg1 1000 1500 true =
      calculateUserPoints [leadIrrelevantB] cfg1 1000 1500 true :=
  c10_irrelevant_fields cfg1 1000 1500 true leadIrrelevantA leadIrrelevantB
    (by decide)
